import Mathlib

/-!
Shallow embedding of the Shelly Gen2 HTTP/RPC integration
(lib/shellyApi.js, lib/deviceDiscovery.js, lib/devices/*.js) and proofs of
the specification claims about it.

JavaScript values are modelled as follows: possibly-absent object fields
become `Option`, JS numbers become `ℚ` (with `Option ℤ` where `NaN` from
`parseInt` matters), string-keyed JS objects become ordered association
lists, and code that can throw returns `Except`.
-/

namespace ShellyHttp

/-- A JavaScript `Error` value: an optional `code` property and a message. -/
structure JsError where
  code : Option String
  message : String
deriving DecidableEq, Repr

/-! ## CoverDevice (lib/devices/CoverDevice.js) -/

/-- The fields of one cover channel's update object inside a notification
(`state`, `current_pos`, `apower`, `current`; each may be absent). -/
structure CoverFields where
  state : Option String
  current_pos : Option ℚ
  apower : Option ℚ
  current : Option ℚ
deriving DecidableEq, Repr

/-- The capability values a cover session holds. -/
structure CoverCaps where
  windowcoverings_state : String
  windowcoverings_set : ℚ
  measure_power : ℚ
  measure_current : ℚ
deriving DecidableEq, Repr

/-- The structured `event` form of a cover notification. -/
structure CoverEvent where
  component : String
  event : String
  direction : Option String
deriving DecidableEq, Repr

/-- The argument of `CoverDevice.handleNotification`: the reshaped
`updates.cover` map (string channel keys) and the optional `event`. -/
structure CoverNotifData where
  cover : List (String × CoverFields)
  event : Option CoverEvent
deriving DecidableEq, Repr

/-- `CoverDevice.mapCoverState`: the device state string to capability
state mapping. -/
def mapCoverState (state : String) : String :=
  if state = ("opening") then ("up")
  else if state = ("closing") then ("down")
  else if state = ("stopped") then ("idle")
  else ("idle")

/-- `CoverDevice.handleNotification` acting on the capability values: reads
`data.updates.cover["0"]` (the channel key is the literal string "0"), maps
the `state` field when truthy, converts `current_pos` to a fraction, and
passes `apower` / `current` through; then applies the `event` branch for
`component = "cover:0"`. -/
def coverHandleNotification (caps : CoverCaps) (data : CoverNotifData) : CoverCaps :=
  let caps :=
    match data.cover.lookup ("0") with
    | none => caps
    | some coverData =>
      let caps :=
        match coverData.state with
        | some st => if st = "" then caps
            else { caps with windowcoverings_state := mapCoverState st }
        | none => caps
      let caps :=
        match coverData.current_pos with
        | some p => { caps with windowcoverings_set := p / 100 }
        | none => caps
      let caps :=
        match coverData.apower with
        | some w => { caps with measure_power := w }
        | none => caps
      match coverData.current with
      | some c => { caps with measure_current := c }
      | none => caps
  match data.event with
  | some ev =>
    if ev.component = ("cover:0") then
      if ev.event = ("start") then
        { caps with windowcoverings_state :=
            if ev.direction = some ("open") then ("up") else ("down") }
      else if ev.event = ("stop") then
        { caps with windowcoverings_state := ("idle") }
      else caps
    else caps
  | none => caps

/-- A cover session: the channel index it was paired for (from the device
descriptor identity `{deviceId}_cover:{channel}`) and its capability
values. `CoverDevice` never reads the channel. -/
structure CoverSession where
  channel : ℕ
  caps : CoverCaps
deriving DecidableEq, Repr

/-- Delivering one notification to a cover session: the handler updates the
capability values and uses nothing else of the session. -/
def coverSessionNotify (s : CoverSession) (data : CoverNotifData) : CoverSession :=
  { s with caps := coverHandleNotification s.caps data }

/-- The channel-0 update fields of the claim C1 notification: state
"opening", current_pos 42. -/
def c1Fields : CoverFields :=
  { state := some ("opening"), current_pos := some 42, apower := none, current := none }

/-- The notification of claim C1: cover channel 0 with state "opening" and
current_pos 42, no event. -/
def c1Data : CoverNotifData :=
  { cover := [(("0"), c1Fields)], event := none }

/-- A cover session bound to channel 1 with quiescent capability values. -/
def c1OtherSession : CoverSession :=
  { channel := 1,
    caps := { windowcoverings_state := ("idle"), windowcoverings_set := 1/10,
              measure_power := 0, measure_current := 0 } }

/-- C1 (counterexample): a cover session bound to channel 1 does NOT leave
its capability values unchanged by the `{cover:{"0":{state:"opening",
current_pos:42}}}` notification — the handler ignores the bound channel and
always reads channel key "0", so this session's capabilities change too. -/
theorem c1_other_channel_changes :
    coverSessionNotify c1OtherSession c1Data ≠ c1OtherSession := by
  intro h
  have hL : (coverSessionNotify c1OtherSession c1Data).caps.windowcoverings_state = ("up") := rfl
  rw [h] at hL
  exact absurd hL (by decide)

/-- C1 (amended): for every cover session — regardless of its bound channel
index — a notification whose updates contain cover channel 0 with state
"opening" and current_pos 42 (and no event) sets the motion-state
capability to "up" and the position capability to 0.42; the handler always
reads channel key "0" and never consults the session's bound channel. -/
theorem c1_cover_notification (s : CoverSession) (d : CoverNotifData) (f : CoverFields)
    (hf : d.cover.lookup ("0") = some f) (hs : f.state = some ("opening"))
    (hp : f.current_pos = some 42) (he : d.event = none) :
    (coverSessionNotify s d).caps.windowcoverings_state = ("up") ∧
    (coverSessionNotify s d).caps.windowcoverings_set = 42/100 := by
  rcases f with ⟨fs, fp, fw, fc⟩
  simp only at hs hp
  subst hs hp
  simp only [coverSessionNotify, coverHandleNotification, hf, he, mapCoverState]
  cases fw <;> cases fc <;> exact ⟨rfl, rfl⟩

/-- C1 witness: the amended theorem applied to a concrete channel-1 session
and the concrete C1 notification. -/
theorem c1_cover_notification_witness :
    (coverSessionNotify c1OtherSession c1Data).caps.windowcoverings_state = ("up") ∧
    (coverSessionNotify c1OtherSession c1Data).caps.windowcoverings_set = 42/100 :=
  c1_cover_notification c1OtherSession c1Data c1Fields rfl rfl rfl rfl

/-! ## BaseDevice.destroy (lib/devices/BaseDevice.js) and the ShellyApi surface -/

/-- The methods the `ShellyApi` class (lib/shellyApi.js) actually defines.
Note there is no `removeNotificationHandler`: only `setNotificationHandler`
exists (line 342). -/
def shellyApiMethods : List String :=
  [("log"), ("error"), ("connect"), ("handleMessage"), ("handleNotification"),
   ("handleRpcResponse"), ("handleError"), ("request"), ("getDeviceInfo"),
   ("getStatus"), ("getCoverStatus"), ("coverGoToPosition"), ("coverOpen"),
   ("coverClose"), ("coverStop"), ("getSwitchStatus"), ("switchSet"),
   ("setNotificationHandler"), ("cleanupWebSocket"), ("disconnect")]

/-- The parts of a device session's channel state that teardown touches:
whether a notification handler is registered on the channel and whether the
transport connection is open. -/
structure TeardownState where
  handlerRegistered : Bool
  wsOpen : Bool
deriving DecidableEq, Repr

/-- The `TypeError` raised by calling the missing method. -/
def removeHandlerTypeError : JsError :=
  { code := none,
    message := ("TypeError: this.api.removeNotificationHandler is not a function") }

/-- `BaseDevice.destroy`: if `this.api` is present it first calls
`this.api.removeNotificationHandler(...)` — a method the `ShellyApi` class
does not define, so in JavaScript the call site throws a `TypeError` and
the subsequent `this.api.disconnect()` is never reached. Were the method
defined, the handler would be cleared and the channel closed. -/
def destroy (hasApi : Bool) (s : TeardownState) : Except JsError TeardownState :=
  if hasApi then
    if shellyApiMethods.contains ("removeNotificationHandler") then
      Except.ok { handlerRegistered := false, wsOpen := false }
    else
      Except.error removeHandlerTypeError
  else
    Except.ok s

/-- C2: evaluating `destroy` on a live session (api present, handler
registered, channel open) shows the teardown throws a `TypeError` instead
of completing: `ShellyApi` defines no `removeNotificationHandler` method,
so the channel is never closed and the handler never unregistered. -/
theorem c2_destroy_throws :
    destroy true { handlerRegistered := true, wsOpen := true } =
      Except.error removeHandlerTypeError ∧
    shellyApiMethods.contains ("removeNotificationHandler") = false ∧
    shellyApiMethods.contains ("setNotificationHandler") = true := by
  refine ⟨rfl, by decide, by decide⟩

/-! ## ShellyApi.request retry path (lib/shellyApi.js, lines 188-246) -/

/-- `CONFIG.REQUEST_TIMEOUT` (ms). -/
def CONFIG_REQUEST_TIMEOUT : ℕ := 5000

/-- `CONFIG.RETRY_DELAY` (ms). -/
def CONFIG_RETRY_DELAY : ℕ := 1000

/-- `CONFIG.RETRYABLE_ERRORS`. -/
def CONFIG_RETRYABLE_ERRORS : List String :=
  [("EHOSTUNREACH"), ("ETIMEDOUT"), ("ECONNREFUSED")]

/-- JS `list.includes(x)` where `x` is a possibly-undefined error code. -/
def jsIncludes (l : List String) (c : Option String) : Bool :=
  match c with
  | some s => l.contains s
  | none => false

/-- The retry guard of `request`:
`retries > 0 && CONFIG.RETRYABLE_ERRORS.includes(err.code)`. -/
def retryCondition (retries : ℕ) (err : JsError) : Bool :=
  decide (0 < retries) && jsIncludes CONFIG_RETRYABLE_ERRORS err.code

/-- The identifiers in scope inside the `catch (err)` block around
`this.ws.send(msg)` in `request` (module scope: `WebSocket`, `CONFIG`,
`ShellyApi` and Node globals; parameters `method`, `params`, `retries`;
locals `message`, `msg`; executor parameters `resolve`, `reject`; closure
locals `msgId`, `timeoutId`; the catch parameter `err`). The identifier
`id` used at `this.pendingRequests.delete(id)` (line 226) is not among
them, so evaluating that statement throws a `ReferenceError`. -/
def requestCatchScope : List String :=
  [("WebSocket"), ("CONFIG"), ("ShellyApi"), ("require"), ("module"),
   ("console"), ("global"), ("setTimeout"), ("clearTimeout"), ("JSON"),
   ("Promise"), ("method"), ("params"), ("retries"), ("message"),
   ("msg"), ("resolve"), ("reject"), ("msgId"), ("timeoutId"), ("err")]

/-- What the send-failure catch block does with the failed call. -/
inductive SendFailureOutcome where
  | retryScheduled (delayMs : ℕ) (remainingRetries : ℕ)
  | rejected (e : JsError)
deriving DecidableEq, Repr

/-- The error produced by referencing the undeclared variable `id`. -/
def referenceErrorId : JsError :=
  { code := none, message := ("ReferenceError: id is not defined") }

/-- The `catch (err)` block of `request` around `this.ws.send(msg)`
(lines 224-237): it runs `clearTimeout(timeoutId)` (no effect on the
outcome), then `this.pendingRequests.delete(id)` — but `id` is not a
declared variable, so this statement throws a `ReferenceError` out of the
promise executor, rejecting the call before the retry branch below it can
run. Were `id` in scope, the block would schedule a retry after
`CONFIG.RETRY_DELAY` when the retry guard holds and reject with the
original error otherwise. -/
def requestSendCatch (err : JsError) (retries : ℕ) : SendFailureOutcome :=
  if requestCatchScope.contains ("id") then
    if retryCondition retries err then
      SendFailureOutcome.retryScheduled CONFIG_RETRY_DELAY (retries - 1)
    else
      SendFailureOutcome.rejected err
  else
    SendFailureOutcome.rejected referenceErrorId

/-- C3: a transport-level send failure is never retried — for every error
(including one whose code is in the retryable set, with retry budget left)
the catch block rejects with `ReferenceError: id is not defined`, because
line 226 references the undeclared variable `id` before the retry branch.
The second conjunct confirms `EHOSTUNREACH` is in the retryable set and the
guard would have held, so the retry branch is genuinely dead code. -/
theorem c3_send_failure_never_retried :
    (∀ (err : JsError) (retries : ℕ),
      requestSendCatch err retries = SendFailureOutcome.rejected referenceErrorId) ∧
    retryCondition 1 { code := some ("EHOSTUNREACH"), message := ("send failed") } = true ∧
    requestCatchScope.contains ("id") = false := by
  refine ⟨fun err retries => rfl, by decide, by decide⟩

/-! ## ShellyApi.connect (lib/shellyApi.js, lines 51-88 and 156-179) -/

/-- The connection-relevant part of a `ShellyApi` instance: whether
`this.ws` holds a socket object and the `isConnected` flag. -/
structure ConnState where
  ws : Bool
  isConnected : Bool
deriving DecidableEq, Repr

/-- How a call to `connect()` returns. -/
inductive ConnectCallResult where
  | resolvedImmediately
  | attemptStarted
deriving DecidableEq, Repr

/-- `connect()` up to its first suspension: `if (this.ws) return
Promise.resolve();` — otherwise it assigns `this.ws = new WebSocket(...)`
and installs the event handlers, so a second overlapping call sees `ws`
set and returns immediately. -/
def connect (s : ConnState) : ConnectCallResult × ConnState :=
  if s.ws then (ConnectCallResult.resolvedImmediately, s)
  else (ConnectCallResult.attemptStarted, { ws := true, isConnected := s.isConnected })

/-- The steps the `open` event handler of `connect` performs, in order. -/
inductive ConnEvent where
  | setConnectedFlag
  | statusExchange (method : String)
  | resolveConnect
deriving DecidableEq, Repr

/-- The `ws.on('open', ...)` handler: sets `isConnected`, awaits one
`this.getStatus()` call — a single `Shelly.GetStatus` request whose
exchange settles (its own failure is caught and logged) — and only then
resolves the connect promise. -/
def onOpenTrace : List ConnEvent :=
  [ConnEvent.setConnectedFlag, ConnEvent.statusExchange ("Shelly.GetStatus"),
   ConnEvent.resolveConnect]

/-- Whether a connect-handler step is a request exchange. -/
def isStatusExchange : ConnEvent → Bool
  | ConnEvent.statusExchange _ => true
  | _ => false

/-- JS substring test (`String.prototype.includes`). -/
def strContains (s pat : String) : Bool :=
  decide (List.IsInfix pat.toList s.toList)

/-- `handleError` (lines 156-179): tears the socket down and rejects the
connect promise with an enhanced error whose code is `NOT_SHELLY_DEVICE`
when the underlying message mentions a 404 or an unexpected upgrade
response, the transport's own `err.code` when present (and truthy, i.e.
non-empty), and `CONNECTION_FAILED` otherwise. -/
def normalizeConnectError (err : JsError) : JsError :=
  if strContains err.message ("404") || strContains err.message ("Unexpected server response") then
    { code := some ("NOT_SHELLY_DEVICE"), message := ("Device discovery: not a Shelly device") }
  else
    match err.code with
    | some c =>
      if c = "" then
        { code := some ("CONNECTION_FAILED"), message := ("Device discovery: connection failed") }
      else
        { code := some c, message := ("Device discovery: connection failed") }
    | none =>
      { code := some ("CONNECTION_FAILED"), message := ("Device discovery: connection failed") }

/-- C4: `connect()` is idempotent — with a connection present or an attempt
in flight (`ws` set) it returns immediately and leaves the state unchanged;
a fresh attempt's `open` handler performs exactly one status-query exchange
(`Shelly.GetStatus`) and resolves the connect promise only at a strictly
later step; and a failed attempt rejects with an error whose code is
`NOT_SHELLY_DEVICE`, the transport's own code, or `CONNECTION_FAILED`. -/
theorem c4_connect_idempotent_and_normalized :
    (∀ s : ConnState, s.ws = true → connect s = (ConnectCallResult.resolvedImmediately, s)) ∧
    (onOpenTrace.countP isStatusExchange = 1) ∧
    (∃ i j, i < j ∧
      onOpenTrace.get? i = some (ConnEvent.statusExchange ("Shelly.GetStatus")) ∧
      onOpenTrace.get? j = some ConnEvent.resolveConnect) ∧
    (∀ err : JsError,
      (normalizeConnectError err).code = some ("NOT_SHELLY_DEVICE") ∨
      (normalizeConnectError err).code = err.code ∨
      (normalizeConnectError err).code = some ("CONNECTION_FAILED")) := by
  refine ⟨?_, by decide, ⟨1, 2, by decide, by decide, by decide⟩, ?_⟩
  · intro s hws
    simp [connect, hws]
  · intro err
    unfold normalizeConnectError
    by_cases h4 : (strContains err.message ("404") ||
        strContains err.message ("Unexpected server response")) = true
    · rw [if_pos h4]
      exact Or.inl rfl
    · rw [if_neg h4]
      cases hc : err.code with
      | none => exact Or.inr (Or.inr rfl)
      | some c =>
        dsimp only
        by_cases hce : c = ""
        · rw [if_pos hce]
          exact Or.inr (Or.inr rfl)
        · rw [if_neg hce]
          exact Or.inr (Or.inl rfl)

/-- C4 witness: the idempotence branch at a concrete connected state. -/
theorem c4_connect_witness :
    connect { ws := true, isConnected := true } =
      (ConnectCallResult.resolvedImmediately, { ws := true, isConnected := true }) :=
  c4_connect_idempotent_and_normalized.1 { ws := true, isConnected := true } rfl

/-! ## ShellyApi request/response channel state (lib/shellyApi.js, lines 140-218) -/

/-- The correlation-id part of a `ShellyApi` instance: `messageId` (the
next id to assign, initialized to 1 in the constructor) and the keys of
the `pendingRequests` map. -/
structure RpcChannelState where
  messageId : ℕ
  pending : List ℕ
deriving DecidableEq, Repr

/-- The constructor's channel state: `messageId = 1`, no pending
requests. -/
def initialChannel : RpcChannelState :=
  { messageId := 1, pending := [] }

/-- The send path of `request` (lines 194-218): the outbound message takes
`id: this.messageId++`, and the executor registers the pending slot under
`msgId = this.messageId - 1`, i.e. the id just assigned. Returns the
assigned correlation id and the new state. -/
def sendRequest (s : RpcChannelState) : ℕ × RpcChannelState :=
  (s.messageId, { messageId := s.messageId + 1, pending := s.messageId :: s.pending })

/-- What `handleRpcResponse` does to the matched pending slot. -/
inductive RespOutcome where
  | resolved
  | rejectedRpcError
deriving DecidableEq, Repr

/-- `handleRpcResponse` (lines 140-150): look up the message id in the
pending map; when found, delete the entry and resolve or reject the slot
according to `message.error`; when absent, do nothing. -/
def handleRpcResponse (s : RpcChannelState) (respId : ℕ) (hasError : Bool) :
    RpcChannelState × Option RespOutcome :=
  if s.pending.contains respId then
    ({ s with pending := s.pending.erase respId },
     some (if hasError then RespOutcome.rejectedRpcError else RespOutcome.resolved))
  else
    (s, none)

/-- The timeout callback of `request` (lines 204-207): deletes the pending
slot for `msgId` and rejects the call with `REQUEST_TIMEOUT`. -/
def requestTimeoutError : JsError :=
  { code := none, message := ("REQUEST_TIMEOUT") }

/-- Firing of the per-call timeout for `msgId`. -/
def requestTimeoutFire (s : RpcChannelState) (msgId : ℕ) : RpcChannelState × JsError :=
  ({ s with pending := s.pending.erase msgId }, requestTimeoutError)

/-- One externally visible channel operation. -/
inductive ChanOp where
  | send
  | response (respId : ℕ) (hasError : Bool)
  | timeoutFor (msgId : ℕ)
deriving DecidableEq, Repr

/-- Whether an operation is a send. -/
def isSendOp : ChanOp → Bool
  | ChanOp.send => true
  | ChanOp.response _ _ => false
  | ChanOp.timeoutFor _ => false

/-- State transition of one channel operation. -/
def stepChan (s : RpcChannelState) : ChanOp → RpcChannelState
  | ChanOp.send => (sendRequest s).2
  | ChanOp.response i e => (handleRpcResponse s i e).1
  | ChanOp.timeoutFor i => (requestTimeoutFire s i).1

/-- Running a sequence of channel operations from a state. -/
def runChanFrom (s : RpcChannelState) : List ChanOp → RpcChannelState
  | [] => s
  | op :: rest => runChanFrom (stepChan s op) rest

/-- Running a sequence of channel operations from the constructor state. -/
def runChan (ops : List ChanOp) : RpcChannelState :=
  runChanFrom initialChannel ops

/-- The correlation ids assigned by the sends of an operation sequence,
in order. -/
def assignedIds (s : RpcChannelState) : List ChanOp → List ℕ
  | [] => []
  | ChanOp.send :: rest => (sendRequest s).1 :: assignedIds (stepChan s ChanOp.send) rest
  | op :: rest => assignedIds (stepChan s op) rest

/-- Every pending key is below the next id to assign. -/
def PendingBelowNext (s : RpcChannelState) : Prop :=
  ∀ k ∈ s.pending, k < s.messageId

/-- C5: when the 5000ms deadline fires for a call, its pending slot is
deleted from the pending map (every other slot is kept), the call fails
with `REQUEST_TIMEOUT`, and that failure can never satisfy the retry guard
(the timeout error has no `code`, so it is outside the retryable set) —
hence a timed-out call is never retried. -/
theorem c5_timeout_drops_slot (s : RpcChannelState) (msgId : ℕ)
    (hnd : s.pending.Nodup) :
    (requestTimeoutFire s msgId).2 = requestTimeoutError ∧
    (requestTimeoutFire s msgId).2.message = ("REQUEST_TIMEOUT") ∧
    msgId ∉ (requestTimeoutFire s msgId).1.pending ∧
    (∀ k, k ≠ msgId → (k ∈ (requestTimeoutFire s msgId).1.pending ↔ k ∈ s.pending)) ∧
    (∀ retries, retryCondition retries (requestTimeoutFire s msgId).2 = false) ∧
    CONFIG_REQUEST_TIMEOUT = 5000 := by
  refine ⟨rfl, rfl, hnd.not_mem_erase, ?_, ?_, rfl⟩
  · intro k hk
    exact List.mem_erase_of_ne hk
  · intro retries
    simp [retryCondition, requestTimeoutFire, requestTimeoutError, jsIncludes]

/-- C5 witness: the timeout for id 2 on a channel with pending ids 1 and 2
drops exactly slot 2 and yields the non-retryable `REQUEST_TIMEOUT`. -/
theorem c5_timeout_witness :
    (requestTimeoutFire { messageId := 3, pending := [1, 2] } 2).2 = requestTimeoutError ∧
    2 ∉ (requestTimeoutFire { messageId := 3, pending := [1, 2] } 2).1.pending ∧
    retryCondition 5 (requestTimeoutFire { messageId := 3, pending := [1, 2] } 2).2 = false := by
  have h := c5_timeout_drops_slot { messageId := 3, pending := [1, 2] } 2 (by decide)
  exact ⟨h.1, h.2.2.1, h.2.2.2.2.1 5⟩

/-- The messageId is unchanged by response handling. -/
theorem messageId_response (s : RpcChannelState) (i : ℕ) (e : Bool) :
    (handleRpcResponse s i e).1.messageId = s.messageId := by
  unfold handleRpcResponse
  split <;> rfl

/-- The pending keys after any single step are among the old keys and the
id assigned by a send. -/
theorem pendingBelowNext_step (s : RpcChannelState) (op : ChanOp)
    (h : PendingBelowNext s) : PendingBelowNext (stepChan s op) := by
  cases op with
  | send =>
    intro k hk
    simp only [stepChan, sendRequest] at hk ⊢
    rcases List.mem_cons.mp hk with hk | hk
    · omega
    · have := h k hk
      omega
  | response i e =>
    intro k hk
    simp only [stepChan] at hk ⊢
    rw [messageId_response]
    unfold handleRpcResponse at hk
    split at hk
    · dsimp only at hk
      exact h k (List.mem_of_mem_erase hk)
    · dsimp only at hk
      exact h k hk
  | timeoutFor i =>
    intro k hk
    simp only [stepChan, requestTimeoutFire] at hk ⊢
    exact h k (List.mem_of_mem_erase hk)

/-- The invariant holds along every run. -/
theorem pendingBelowNext_runFrom (ops : List ChanOp) (s : RpcChannelState)
    (h : PendingBelowNext s) : PendingBelowNext (runChanFrom s ops) := by
  induction ops generalizing s with
  | nil => exact h
  | cons op rest ih => exact ih (stepChan s op) (pendingBelowNext_step s op h)

/-- The ids assigned from any state are consecutive starting at the state's
next id. -/
theorem assignedIds_eq_range (ops : List ChanOp) (s : RpcChannelState) :
    assignedIds s ops = List.range' s.messageId (ops.countP isSendOp) := by
  induction ops generalizing s with
  | nil => rfl
  | cons op rest ih =>
    cases op with
    | send =>
      simp only [assignedIds, ih]
      simp [List.countP_cons, isSendOp, stepChan, sendRequest, List.range'_succ]
    | response i e =>
      have hm : (stepChan s (ChanOp.response i e)).messageId = s.messageId := by
        simp only [stepChan]
        exact messageId_response s i e
      simp only [assignedIds, ih, hm]
      simp [List.countP_cons, isSendOp]
    | timeoutFor i =>
      simp only [assignedIds, ih]
      simp [List.countP_cons, isSendOp, stepChan, requestTimeoutFire]

/-- C6: over a channel's lifetime (any sequence of sends, responses and
timeouts from the constructor state) the assigned correlation ids are
exactly 1, 2, 3, … in order — they start at 1, increase strictly, and are
never reused; every pending key stays below the next id to assign, so a
newly assigned id can never collide with a pending request; and a response
whose id matches no pending entry leaves the state unchanged and resolves
or rejects nothing. -/
theorem c6_correlation_id_invariant :
    initialChannel.messageId = 1 ∧
    (∀ ops : List ChanOp, assignedIds initialChannel ops =
      List.range' 1 (ops.countP isSendOp)) ∧
    (∀ ops : List ChanOp, PendingBelowNext (runChan ops)) ∧
    (∀ ops : List ChanOp, (sendRequest (runChan ops)).1 ∉ (runChan ops).pending) ∧
    (∀ (s : RpcChannelState) (respId : ℕ) (e : Bool),
      s.pending.contains respId = false → handleRpcResponse s respId e = (s, none)) := by
  refine ⟨rfl, fun ops => assignedIds_eq_range ops initialChannel, ?_, ?_, ?_⟩
  · intro ops
    exact pendingBelowNext_runFrom ops initialChannel (by intro k hk; cases hk)
  · intro ops hmem
    have h := pendingBelowNext_runFrom ops initialChannel (by intro k hk; cases hk)
    simp only [runChan] at hmem
    have := h _ hmem
    simp only [sendRequest, runChan] at this ⊢
    omega
  · intro s respId e hc
    unfold handleRpcResponse
    rw [hc]
    simp

/-- C6 witness: on the concrete run send, send, response(1), the assigned
ids are [1, 2], the invariant holds, and a response bearing the unknown
id 4 is dropped without touching the state. -/
theorem c6_correlation_id_witness :
    assignedIds initialChannel [ChanOp.send, ChanOp.send, ChanOp.response 1 false] =
      List.range' 1 2 ∧
    handleRpcResponse { messageId := 5, pending := [3] } 4 false =
      ({ messageId := 5, pending := [3] }, none) := by
  refine ⟨c6_correlation_id_invariant.2.1 [ChanOp.send, ChanOp.send, ChanOp.response 1 false],
    c6_correlation_id_invariant.2.2.2.2 { messageId := 5, pending := [3] } 4 false (by decide)⟩

/-! ## ShellyApi notification demultiplexing (lib/shellyApi.js, lines 94-134) -/

/-- The recognized push-notification methods of `handleMessage`. -/
def notifyMethods : List String :=
  [("NotifyStatus"), ("NotifyEvent")]

/-- Split a character list at every occurrence of a separator character,
JS `String.prototype.split` semantics (empty pieces are kept). -/
def splitChars (sep : Char) : List Char → List (List Char)
  | [] => [[]]
  | x :: rest =>
    match splitChars sep rest with
    | [] => if x = sep then [[], []] else [[x]]
    | piece :: pieces =>
      if x = sep then [] :: piece :: pieces else (x :: piece) :: pieces

/-- JS `s.split(sep)` for a one-character separator. -/
def jsSplit (s : String) (sep : Char) : List String :=
  (splitChars sep s.toList).map (fun l => String.mk l)

/-- Update an ordered association list at a key: replace the first binding
in place, or append a new binding at the end — JS object assignment
semantics with insertion order. -/
def updateAssoc {α : Type} (l : List (String × α)) (k : String) (v : α) :
    List (String × α) :=
  match l with
  | [] => [(k, v)]
  | (k0, v0) :: rest =>
    if k0 = k then (k, v) :: rest else (k0, v0) :: updateAssoc rest k v

/-- The reshaping loop of `handleNotification` (lines 119-125): every
parameter entry other than `ts` has its key split at `:` into a component
and a channel index (`undefined` when there is no `:`), and the value is
stored under `updates[component][index]`. -/
def reshapeParams {α : Type} (params : List (String × α)) :
    List (String × List (String × α)) :=
  params.foldl
    (fun updates kv =>
      if kv.1 = ("ts") then updates
      else
        let parts := jsSplit kv.1 (':')
        let component := parts.headD ""
        let idKey := (parts.get? 1).getD ("undefined")
        let inner := (updates.lookup component).getD []
        updateAssoc updates component (updateAssoc inner idKey kv.2))
    []

/-- An inbound push message: method, optional `dst`, and the flat `params`
bag (which carries the `ts` entry). -/
structure PushMessage (α : Type) where
  method : String
  dst : Option String
  params : List (String × α)

/-- The argument handed to the notification handler: the `ts` value and the
reshaped two-level updates structure. -/
structure NotifInput (α : Type) where
  timestamp : Option α
  updates : List (String × List (String × α))

/-- `handleMessage` (lines 94-100) followed by `handleNotification`
(lines 106-134), observed through the notification handler: a message whose
method is not a recognized push method goes to the response path, which
never touches the handler; a push is dropped when `dst` is truthy and
differs from this channel's client id; otherwise the reshaped input is
built and, when a handler is registered, it is invoked inside `try`/`catch`
so that a handler exception is logged rather than propagated. Returns the
list of handler invocations (with their argument) and the exception, if
any, that escaped the channel's processing — the latter is `none` on every
path. -/
def processPushMessage {α : Type} (deviceId : String)
    (handler : Option (NotifInput α → Except String Unit)) (m : PushMessage α) :
    List (NotifInput α) × Option String :=
  if !(notifyMethods.contains m.method) then
    ([], none)
  else if (match m.dst with
      | some d => !(d = "") && !(d = deviceId)
      | none => false) then
    ([], none)
  else
    let input : NotifInput α :=
      { timestamp := m.params.lookup ("ts"), updates := reshapeParams m.params }
    match handler with
    | none => ([], none)
    | some h =>
      match h input with
      | Except.ok _ => ([input], none)
      | Except.error _ => ([input], none)

/-- C7: for a message whose method is a recognized push method — with a
`dst` differing from this channel's client id (and non-empty, hence truthy)
the handler is not invoked; with no `dst`, an empty `dst`, or this
channel's own id, the registered handler is invoked exactly once with the
reshaped `{component: {index: fields}}` structure plus the timestamp; and
on every path no handler exception escapes the channel's processing. -/
theorem c7_push_demultiplexing {α : Type} (deviceId : String)
    (h : NotifInput α → Except String Unit) (m : PushMessage α)
    (hm : m.method ∈ notifyMethods) :
    (∀ d, m.dst = some d → d ≠ "" → d ≠ deviceId →
      processPushMessage deviceId (some h) m = ([], none)) ∧
    ((m.dst = none ∨ m.dst = some "" ∨ m.dst = some deviceId) →
      (processPushMessage deviceId (some h) m).1 =
        [{ timestamp := m.params.lookup ("ts"), updates := reshapeParams m.params }]) ∧
    (processPushMessage deviceId (some h) m).2 = none := by
  have hc : notifyMethods.contains m.method = true := List.elem_eq_true_of_mem hm
  refine ⟨?_, ?_, ?_⟩
  · intro d hd hne hnid
    simp [processPushMessage, hc, hd, hne, hnid]
  · intro hd
    rcases hd with hd | hd | hd <;>
      simp [processPushMessage, hc, hd] <;>
      cases h { timestamp := m.params.lookup ("ts"), updates := reshapeParams m.params } <;>
        simp [hm]
  · simp only [processPushMessage, hc, Bool.not_true]
    rw [if_neg (by simp)]
    split
    · rfl
    · cases h { timestamp := m.params.lookup ("ts"), updates := reshapeParams m.params } <;> rfl

/-- A concrete push message: `NotifyStatus` addressed to this client, with
a timestamp and one `switch:0` entry. -/
def c7Msg : PushMessage ℕ :=
  { method := ("NotifyStatus"), dst := some ("dev1"),
    params := [(("ts"), 99), (("switch:0"), 7)] }

/-- A handler that always throws, to exercise exception isolation. -/
def c7ThrowingHandler : NotifInput ℕ → Except String Unit :=
  fun _ => Except.error ("handler boom")

/-- C7 witness: the concrete message is delivered exactly once with the
reshaped two-level structure and the timestamp, and the throwing handler's
exception does not escape. -/
theorem c7_push_witness :
    (processPushMessage ("dev1") (some c7ThrowingHandler) c7Msg).1 =
      [{ timestamp := some 99, updates := [(("switch"), [(("0"), 7)])] }] ∧
    (processPushMessage ("dev1") (some c7ThrowingHandler) c7Msg).2 = none := by
  have h := c7_push_demultiplexing ("dev1") c7ThrowingHandler c7Msg (by decide)
  refine ⟨?_, h.2.2⟩
  rw [h.2.1 (Or.inr (Or.inr rfl))]
  rfl

/-! ## DeviceDiscovery (lib/deviceDiscovery.js) -/

/-- `SCAN_BATCH_SIZE` from the `DeviceDiscovery` constructor. -/
def SCAN_BATCH_SIZE : ℕ := 20

/-- `_generateIpRange` (lines 59-69): hosts `.1` through `.254` of the
derived /24 prefix, in order. -/
def generateIpRange (baseIp : String) : List String :=
  (List.range 254).map (fun i => baseIp ++ ("." ) ++ toString (i + 1))

/-- The batches the loop of `_scanNetworkInBatches` (lines 75-106) slices:
`i = 0, 20, 40, …` with `ipRange.slice(i, i + SCAN_BATCH_SIZE)`. -/
def scanBatches (l : List String) : List (List String) :=
  (List.range ((l.length + SCAN_BATCH_SIZE - 1) / SCAN_BATCH_SIZE)).map
    (fun k => (l.drop (k * SCAN_BATCH_SIZE)).take SCAN_BATCH_SIZE)

/-- The ordered events of one batch-loop iteration. -/
inductive ScanEvent where
  | batchStart (k : ℕ)
  | batchSettled (k : ℕ)
  | interBatchDelay (ms : ℕ)
deriving DecidableEq, Repr

/-- The event trace of `_scanNetworkInBatches` over `numBatches` batches
(no abort): each iteration launches its batch's probes, awaits
`Promise.allSettled` over all of them, then sleeps 100ms. -/
def scanTrace (numBatches : ℕ) : List ScanEvent :=
  (List.range numBatches).flatMap
    (fun k => [ScanEvent.batchStart k, ScanEvent.batchSettled k,
      ScanEvent.interBatchDelay 100])

/-- Unrolling the trace by one batch. -/
theorem scanTrace_succ (n : ℕ) :
    scanTrace (n + 1) = scanTrace n ++
      [ScanEvent.batchStart n, ScanEvent.batchSettled n,
       ScanEvent.interBatchDelay 100] := by
  simp [scanTrace, List.range_succ]

/-- The trace of n batches has 3n events. -/
theorem scanTrace_length (n : ℕ) : (scanTrace n).length = 3 * n := by
  induction n with
  | zero => rfl
  | succ m ih =>
    rw [scanTrace_succ, List.length_append, ih]
    simp
    omega

/-- The trace places iteration k's events at positions 3k, 3k+1, 3k+2. -/
theorem scanTrace_get (n k : ℕ) (hk : k < n) :
    (scanTrace n)[3 * k]? = some (ScanEvent.batchStart k) ∧
    (scanTrace n)[3 * k + 1]? = some (ScanEvent.batchSettled k) ∧
    (scanTrace n)[3 * k + 2]? = some (ScanEvent.interBatchDelay 100) := by
  induction n with
  | zero => omega
  | succ m ih =>
    have hlen := scanTrace_length m
    rcases Nat.lt_succ_iff_lt_or_eq.mp hk with h | h
    · have hget := ih h
      refine ⟨?_, ?_, ?_⟩ <;>
        rw [scanTrace_succ, List.getElem?_append_left (by omega)] <;>
        first
          | exact hget.1
          | exact hget.2.1
          | exact hget.2.2
    · subst h
      refine ⟨?_, ?_, ?_⟩ <;>
        rw [scanTrace_succ, List.getElem?_append_right (by omega)] <;>
        simp [scanTrace_length]

/-- C8: the scanner enumerates exactly the 254 hosts `.1`–`.254` of the
/24 prefix, partitions them into exactly ⌈254/20⌉ = 13 batches of at most
`SCAN_BATCH_SIZE = 20` addresses, and in the batch loop's trace batch k+1
starts only after batch k's probes have all settled, with the fixed 100ms
delay strictly between the two. -/
theorem c8_batched_scan (baseIp : String) :
    (generateIpRange baseIp).length = 254 ∧
    (∀ i, i < 254 →
      (generateIpRange baseIp)[i]? = some (baseIp ++ ("." ) ++ toString (i + 1))) ∧
    (scanBatches (generateIpRange baseIp)).length = 13 ∧
    (∀ b ∈ scanBatches (generateIpRange baseIp), b.length ≤ SCAN_BATCH_SIZE) ∧
    (∀ k, k + 1 < 13 →
      (scanTrace 13)[3 * k + 1]? = some (ScanEvent.batchSettled k) ∧
      (scanTrace 13)[3 * k + 2]? = some (ScanEvent.interBatchDelay 100) ∧
      (scanTrace 13)[3 * (k + 1)]? = some (ScanEvent.batchStart (k + 1)) ∧
      3 * k + 1 < 3 * k + 2 ∧ 3 * k + 2 < 3 * (k + 1)) := by
  have hlen : (generateIpRange baseIp).length = 254 := by
    simp [generateIpRange]
  refine ⟨hlen, ?_, ?_, ?_, ?_⟩
  · intro i hi
    simp only [generateIpRange, List.getElem?_map, List.getElem?_range hi]
    rfl
  · simp [scanBatches, hlen, SCAN_BATCH_SIZE]
  · intro b hb
    simp only [scanBatches, List.mem_map, List.mem_range] at hb
    obtain ⟨k, _, hbk⟩ := hb
    rw [← hbk, List.length_take]
    exact min_le_left _ _
  · intro k hk
    have h1 := scanTrace_get 13 k (by omega)
    have h2 := scanTrace_get 13 (k + 1) (by omega)
    exact ⟨h1.2.1, h1.2.2, h2.1, by omega, by omega⟩

/-- C8 witness: the concrete facts for the boundary between batches 0
and 1, and the overall counts for a concrete local /24. -/
theorem c8_batched_scan_witness :
    (generateIpRange ("192.168.1")).length = 254 ∧
    (scanBatches (generateIpRange ("192.168.1"))).length = 13 ∧
    (scanTrace 13)[1]? = some (ScanEvent.batchSettled 0) ∧
    (scanTrace 13)[2]? = some (ScanEvent.interBatchDelay 100) ∧
    (scanTrace 13)[3]? = some (ScanEvent.batchStart 1) := by
  have h := c8_batched_scan ("192.168.1")
  have h5 := h.2.2.2.2 0 (by omega)
  exact ⟨h.1, h.2.2.1, h5.1, h5.2.1, h5.2.2.1⟩

/-- A discovered device entry (`_createDeviceEntry`), reduced to the fields
the discovery claims need. -/
structure DeviceEntry where
  id : String
  ip : String
deriving DecidableEq, Repr

/-- How the probe of one candidate address can end: the two-call handshake
succeeds and contributes device entries, or it fails with some error code
(connection refused, malformed response, transport reset, protocol
mismatch, …), or the 1500ms per-device timer fires first. -/
inductive ProbeOutcome where
  | success (entries : List DeviceEntry)
  | failure (code : Option String)
  | timedOut
deriving DecidableEq, Repr

/-- `_tryDevice` (lines 112-138): the returned promise only ever resolves —
`resolve(true)` when `_queryDevice` succeeds, `resolve(null)` when it
rejects (any failure) and `resolve(null)` when the per-device timeout
fires. It never rejects, so the `Except.error` constructor is unused; the
entries a successful probe pushed accompany the resolution. -/
def tryDevice (o : ProbeOutcome) : Except JsError (Option Bool × List DeviceEntry) :=
  Except.ok
    (match o with
     | ProbeOutcome.success es => (some true, es)
     | ProbeOutcome.failure _ => (none, [])
     | ProbeOutcome.timedOut => (none, []))

/-- The /24 prefix derivation of `discoverDevices` (line 23):
`localAddress.split('.').slice(0, 3).join('.')`. -/
def baseIpOf (localAddress : String) : String :=
  String.intercalate (".") ((jsSplit localAddress ('.')).take 3)

/-- `discoverDevices` (lines 20-53): everything runs inside one
`try`/`catch` whose `catch` logs and returns `[]` — a failure to determine
the local address (or any other scanner-level error) yields an empty list
instead of propagating. On success the batched scan's accumulated entries
are returned. -/
def discoverDevices (localAddress : Except JsError String)
    (scanResults : String → List DeviceEntry) : List DeviceEntry :=
  match localAddress with
  | Except.error _ => []
  | Except.ok addr => scanResults (baseIpOf addr)

/-- C9: a failed or timed-out probe never fails the discovery run — every
probe outcome resolves (never rejects), a failing probe contributes no
entries (the address is simply absent from the result list), and a
scanner-level failure such as not being able to determine the local
address makes `discoverDevices` return the empty list rather than
propagate the error. -/
theorem c9_probe_failures_absorbed :
    (∀ o : ProbeOutcome, ∃ v, tryDevice o = Except.ok v) ∧
    (∀ c, tryDevice (ProbeOutcome.failure c) = Except.ok (none, [])) ∧
    tryDevice ProbeOutcome.timedOut = Except.ok (none, []) ∧
    (∀ (e : JsError) (scanResults : String → List DeviceEntry),
      discoverDevices (Except.error e) scanResults = []) := by
  refine ⟨?_, fun c => rfl, rfl, fun e scanResults => rfl⟩
  intro o
  cases o with
  | success es => exact ⟨(some true, es), rfl⟩
  | failure c => exact ⟨(none, []), rfl⟩
  | timedOut => exact ⟨(none, []), rfl⟩

/-! ## SwitchDevice (lib/devices/SwitchDevice.js) -/

/-- The numeric value of a list of decimal digit characters. -/
def digitsToNat (ds : List Char) : ℕ :=
  ds.foldl (fun acc c => acc * 10 + (c.toNat - Char.toNat ('0'))) 0

/-- The leading-digit parse shared by the sign branches of `parseInt`. -/
def parseDigits (cs : List Char) : Option ℕ :=
  let ds := cs.takeWhile (fun c => c.isDigit)
  if ds.isEmpty then none else some (digitsToNat ds)

/-- JS `parseInt` on a string: skip whitespace, optional sign, then the
longest prefix of decimal digits; `NaN` (here `none`) when there are no
digits. -/
def parseIntJs (s : String) : Option ℤ :=
  match s.toList.dropWhile (fun c => c.isWhitespace) with
  | '-' :: rest => (parseDigits rest).map (fun n => -(n : ℤ))
  | '+' :: rest => (parseDigits rest).map (fun n => (n : ℤ))
  | cs => (parseDigits cs).map (fun n => (n : ℤ))

/-- The property key a JS number becomes when used to index an object:
`NaN` stringifies to the three-letter key `"NaN"`. -/
def jsNumKey (n : Option ℤ) : String :=
  match n with
  | none => ("NaN")
  | some i => toString i

/-- `SwitchDevice.initializeCapabilities` line 11:
`parseInt(deviceId.split(':')[1])`. When the split yields no second part
the index expression is `undefined` and `parseInt(undefined)` is `NaN`
(`none`); a non-numeric second part is `NaN` too. -/
def parseChannel (deviceId : String) : Option ℤ :=
  match (jsSplit deviceId (':'))[1]? with
  | none => none
  | some s => parseIntJs s

/-- One switch channel's update fields inside a notification. -/
structure SwitchFields where
  output : Option Bool
  apower : Option ℚ
  current : Option ℚ
deriving DecidableEq, Repr

/-- The capability values a switch session holds. -/
structure SwitchCaps where
  onoff : Bool
  measure_power : ℚ
  measure_current : ℚ
deriving DecidableEq, Repr

/-- The argument of `SwitchDevice.handleNotification`: the reshaped
`updates.switch` map (string channel keys), absent when the notification
carried no switch component. -/
structure SwitchNotifData where
  switch : Option (List (String × SwitchFields))
deriving DecidableEq, Repr

/-- `SwitchDevice.handleNotification` (lines 38-57): guarded by
`data.updates.switch && data.updates.switch[this.channelNumber]`, where
indexing coerces the channel number to a property key; on a match the
`output`, `apower` and `current` fields are applied. -/
def switchHandleNotification (channelNumber : Option ℤ) (caps : SwitchCaps)
    (data : SwitchNotifData) : SwitchCaps :=
  match data.switch with
  | none => caps
  | some entries =>
    match entries.lookup (jsNumKey channelNumber) with
    | none => caps
    | some st =>
      let caps :=
        match st.output with
        | some b => { caps with onoff := b }
        | none => caps
      let caps :=
        match st.apower with
        | some w => { caps with measure_power := w }
        | none => caps
      match st.current with
      | some c => { caps with measure_current := c }
      | none => caps

/-- A canonical decimal channel key, as produced by stringifying a
non-negative channel index. -/
def isDecimalNumeral (s : String) : Bool :=
  !(s.toList.isEmpty) && s.toList.all (fun c => c.isDigit)

/-- Association-list lookup misses when no key matches. -/
theorem lookup_eq_none_of_keys {β : Type} (l : List (String × β)) (k : String)
    (h : ∀ p ∈ l, p.1 ≠ k) : l.lookup k = none := by
  induction l with
  | nil => rfl
  | cons p rest ih =>
    have hne : (k == p.1) = false := by
      have := h p (List.mem_cons_self p rest)
      simp [this.symm]
    simp only [List.lookup, hne]
    exact ih (fun q hq => h q (List.mem_cons_of_mem p hq))

/-- C10: for a switch session whose stored device identifier has no
':'-separated numeric channel suffix (the split yields no second part, or
a second part with no digits), the parsed channel number is NaN, whose
property key is the string "NaN"; and every notification whose switch
updates are keyed by decimal channel numerals — including one for channel
0 — leaves every capability value unchanged, because no decimal numeral
key ever equals "NaN" (and a notification without a switch component is
ignored outright). -/
theorem c10_nan_channel_ignores_updates (deviceId : String)
    (hsuffix : (jsSplit deviceId (':'))[1]? = none ∨
      ∃ s, (jsSplit deviceId (':'))[1]? = some s ∧ parseIntJs s = none) :
    parseChannel deviceId = none ∧
    jsNumKey (parseChannel deviceId) = ("NaN") ∧
    (∀ (caps : SwitchCaps) (data : SwitchNotifData) entries,
      data.switch = some entries →
      (∀ p ∈ entries, isDecimalNumeral p.1 = true) →
      switchHandleNotification (parseChannel deviceId) caps data = caps) ∧
    (∀ (caps : SwitchCaps) (data : SwitchNotifData),
      data.switch = none →
      switchHandleNotification (parseChannel deviceId) caps data = caps) := by
  have hnan : parseChannel deviceId = none := by
    rcases hsuffix with h | ⟨s, hs, hp⟩
    · simp [parseChannel, h]
    · simp [parseChannel, hs, hp]
  refine ⟨hnan, by rw [hnan]; rfl, ?_, ?_⟩
  · intro caps data entries hsw hkeys
    have hmiss : entries.lookup (jsNumKey (parseChannel deviceId)) = none := by
      rw [hnan]
      refine lookup_eq_none_of_keys entries ("NaN") ?_
      intro p hp heq
      have := hkeys p hp
      rw [heq] at this
      exact absurd this (by decide)
    simp only [switchHandleNotification, hsw, hmiss]
  · intro caps data hsw
    simp only [switchHandleNotification, hsw]

/-- C10 witness: a device id with no ':' in it parses to a NaN channel, and
the concrete notification with switch-channel-0 updates leaves the
capability values of such a session unchanged. -/
theorem c10_nan_channel_witness :
    parseChannel ("shellyplus2pm-a8032ab12345") = none ∧
    switchHandleNotification (parseChannel ("shellyplus2pm-a8032ab12345"))
      { onoff := false, measure_power := 0, measure_current := 0 }
      { switch := some [(("0"),
          { output := some true, apower := none, current := none })] } =
      { onoff := false, measure_power := 0, measure_current := 0 } := by
  have h := c10_nan_channel_ignores_updates ("shellyplus2pm-a8032ab12345")
    (Or.inl (by decide))
  refine ⟨h.1, ?_⟩
  exact h.2.2.1
    { onoff := false, measure_power := 0, measure_current := 0 }
    { switch := some [(("0"), { output := some true, apower := none, current := none })] }
    [(("0"), { output := some true, apower := none, current := none })]
    rfl (by decide)

end ShellyHttp
